import Mathlib

set_option maxRecDepth 100000

/-!
Verification of the aggregation-and-tree-construction core of `treechart.py`
(function `build_tree_dot` and its helpers, lines 13-152 of the active code).

The embedding models:
* Python cell values as `CellValue` (`None`, the float `nan` produced by
  pandas for missing cells, or a string), with `cellStr` modelling `str(..)`;
* the tokenizer `split_parameters` (lines 23-36) including its three-rule
  cascade and the regexes `(?i)\bcompliance\b`, `[\n\r;|]` and `,\s{2,}|,`;
* the classification counts, the `defaultdict(list)` grouping by test type,
  `collections.Counter` iteration (insertion order of first occurrence),
  and the DOT/CSV assembly of `build_tree_dot` (lines 48-152).

Python's per-process string hash (`hash`) is a parameter `hash : String → Int`
of the builder: a fixed seed determines one such function, and distinct
interpreter runs may use distinct functions.
-/

/-- Model of a Python cell value as seen by the core: `None`, the float `nan`
(pandas' encoding of a missing cell), or a string. -/
inductive CellValue where
  | none
  | nan
  | str (s : String)
deriving DecidableEq, Repr

/-- Python `str(..)` on the modelled cell values: `str(None) = "None"`,
`str(float('nan')) = "nan"`, strings unchanged. -/
def cellStr : CellValue → String
  | CellValue.none => "None"
  | CellValue.nan => "nan"
  | CellValue.str s => s

/-- ASCII whitespace stripped by Python's `str.strip()` (and matched by `\s`). -/
def isPySpace (c : Char) : Bool :=
  c = ' ' || c = '\t' || c = '\n' || c = '\r' || c = '\x0b' || c = '\x0c'

/-- Drop characters satisfying `p` from both ends of a character list. -/
def dropWhileEnds (p : Char → Bool) (cs : List Char) : List Char :=
  ((cs.dropWhile p).reverse.dropWhile p).reverse

/-- Python `str.strip()` (no argument): strip whitespace from both ends. -/
def pyStrip (s : String) : String := String.mk (dropWhileEnds isPySpace s.toList)

/-- Python `str.strip(" ,;")`: strip spaces, commas and semicolons from both ends. -/
def stripPunct (s : String) : String :=
  String.mk (dropWhileEnds (fun c => c = ' ' || c = ',' || c = ';') s.toList)

/-- Python `str.lower()` (ASCII range, which covers all tokens the code compares). -/
def pyLower (s : String) : String := String.mk (s.toList.map Char.toLower)

/-- Python's `needle in haystack` substring test on character lists. -/
def substrIn (needle : List Char) : List Char → Bool
  | [] => needle.isEmpty
  | c :: rest => needle.isPrefixOf (c :: rest) || substrIn needle rest

/-- Regex word character `\w` (ASCII range) used by the `\b` boundaries. -/
def isWordChar (c : Char) : Bool := c.isAlpha || c.isDigit || c = '_'

/-- The marker `PARAM_END_TOKEN = "compliance"` as lower-case characters. -/
def complianceChars : List Char := ['c', 'o', 'm', 'p', 'l', 'i', 'a', 'n', 'c', 'e']

/-- Case-insensitive match of the 10-character marker at the head of the list. -/
def matchesCompliance (cs : List Char) : Bool :=
  ((cs.take 10).map Char.toLower) == complianceChars

/-- A `\b` boundary directly after a match starting at the head of `cs`:
end of string, or a non-word character. -/
def boundaryAfter (cs : List Char) : Bool :=
  match cs.drop 10 with
  | [] => true
  | c :: _ => !(isWordChar c)

/-- Scanner for `re.split(r"(?i)\bcompliance\b", text)`.  `bnd` records whether
a `\b` boundary holds before the current position (start of string, or the
previous character is not a word character).  `fuel` bounds recursion depth;
it is initialised to the length of the input, which one character (or a whole
10-character match) is consumed from at every step, so the fuel-exhausted
clause is never reached from `splitWordCompliance`. -/
def splitWCAux : Nat → Bool → List Char → List Char → List String
  | _, _, acc, [] => [String.mk acc.reverse]
  | 0, _, acc, cs => [String.mk (acc.reverse ++ cs)]
  | Nat.succ fuel, bnd, acc, c :: rest =>
      if bnd && matchesCompliance (c :: rest) && boundaryAfter (c :: rest) then
        String.mk acc.reverse :: splitWCAux fuel false [] (rest.drop 9)
      else
        splitWCAux fuel (!(isWordChar c)) (c :: acc) rest

/-- `re.split(r"(?i)\bcompliance\b", text)`: split at every case-insensitive
whole-word occurrence of the marker, discarding the marker. -/
def splitWordCompliance (s : String) : List String :=
  splitWCAux s.toList.length true [] s.toList

/-- Line 29's gate: `PARAM_END_TOKEN.lower() in text.lower()` — a plain
substring test, not a whole-word test. -/
def hasComplianceMarker (text : String) : Bool :=
  substrIn complianceChars (pyLower text).toList

/-- Line 31: `[p.strip(" ,;") for p in pieces if p.strip(" ,;")]` applied to
the whole-word split of `text`. -/
def rule1Tokens (text : String) : List String :=
  ((splitWordCompliance text).map stripPunct).filter (fun p => p != "")

/-- `re.split(r"[\n\r;|]", text)`: split at every newline, carriage return,
semicolon or pipe, keeping empty segments. -/
def splitOnDelims (s : String) : List String :=
  (List.splitOnP (fun c => c = '\n' || c = '\r' || c = ';' || c = '|') s.toList).map String.mk

/-- Scanner for `re.split(r",\s{2,}|,", text)`: at each comma, the separator
is the comma plus all following whitespace when at least two whitespace
characters follow (greedy `\s{2,}`), otherwise the comma alone.  `fuel` is
initialised to the input length and at least one character is consumed per
step. -/
def splitCommaAux : Nat → List Char → List Char → List String
  | _, acc, [] => [String.mk acc.reverse]
  | 0, acc, cs => [String.mk (acc.reverse ++ cs)]
  | Nat.succ fuel, acc, c :: rest =>
      if c = ',' then
        let ws := rest.takeWhile isPySpace
        if 2 ≤ ws.length then
          String.mk acc.reverse :: splitCommaAux fuel [] (rest.drop ws.length)
        else
          String.mk acc.reverse :: splitCommaAux fuel [] rest
      else
        splitCommaAux fuel (c :: acc) rest

/-- `re.split(r",\s{2,}|,", text)` as a function on strings. -/
def splitCommaFancy (s : String) : List String :=
  splitCommaAux s.toList.length [] s.toList

/-- Lines 32-36: the delimiter rules (rules 2 and 3) applied to the
already-stripped cell text. -/
def rule23 (text : String) : List String :=
  let out := ((splitOnDelims text).filter (fun p => pyStrip p != "")).map stripPunct
  if out.isEmpty then
    ((splitCommaFancy text).filter (fun p => pyStrip p != "")).map pyStrip
  else out

/-- Lines 26-36 of `split_parameters`, operating on `text = str(cell).strip()`. -/
def splitText (raw : String) : List String :=
  if pyStrip raw = "" then []
  else if hasComplianceMarker (pyStrip raw) then rule1Tokens (pyStrip raw)
  else rule23 (pyStrip raw)

/-- `split_parameters` (lines 23-36): `None` yields `[]`; any other value is
converted with `str(..)` and processed by the three-rule cascade. -/
def split_parameters (cell_value : CellValue) : List String :=
  match cell_value with
  | CellValue.none => []
  | CellValue.nan => splitText (cellStr CellValue.nan)
  | CellValue.str s => splitText s

example : split_parameters (CellValue.str "Lead; Cadmium; Arsenic") = ["Lead", "Cadmium", "Arsenic"] := by decide
example : split_parameters (CellValue.str "a,  b") = ["a,  b"] := by decide
example : split_parameters (CellValue.str ";") = [";"] := by decide

/-- Label with a percentage (line 41): `f"{title}\\n[{count} Samples; {pct:.1f}%]"`.
The already-formatted percentage text is passed in. -/
def format_node_label_pct (title : String) (count : Nat) (pctStr : String) : String :=
  title ++ "\\n[" ++ toString count ++ " Samples; " ++ pctStr ++ "%]"

/-- Label with a bare count (lines 43-44): singular `Sample` exactly when the
count is 1. -/
def format_node_label_cnt (title : String) (count : Nat) : String :=
  title ++ "\\n[" ++ toString count ++ " " ++ (if count = 1 then "Sample" else "Samples") ++ "]"

/-- Tenths of a percent of `n` out of `total`, rounded half-to-even; `0` when
`total = 0` (the guard in `pct`, line 97).  This models `f"{x:.1f}"` on the
float `n / total * 100.0`; at every concrete input used below the value is
exactly representable, where float and rational rounding agree. -/
def pctTenths (n total : Nat) : Nat :=
  if total = 0 then 0
  else
    let a := 1000 * n
    let q := a / total
    let r := a % total
    if 2 * r < total then q
    else if total < 2 * r then q + 1
    else if q % 2 = 0 then q else q + 1

/-- Formatted one-decimal percentage, e.g. `"60.0"`, `"33.3"`. -/
def formatPct (n total : Nat) : String :=
  let t := pctTenths n total
  toString (t / 10) ++ "." ++ toString (t % 10)

example : formatPct 6 10 = "60.0" := by decide
example : formatPct 1 3 = "33.3" := by decide
example : formatPct 10 10 = "100.0" := by decide

/-- `MIS_LABELLED_SET` (lines 13-16); only membership via `any` is used, so
the Python set's iteration order is irrelevant. -/
def MIS_LABELLED_SET : List String :=
  ["mis-labelled", "mis-labeled", "misbranded", "mis-branded",
   "mis branded", "mis labelled", "mis labeled"]

/-- One sample row, with the columns named in `cols` (lines 50-60).  Every
column is present (column-presence validation is the caller's concern); a
missing cell is `CellValue.nan`. -/
structure Row where
  commodity : CellValue
  variant2 : CellValue
  overall_compliance : CellValue
  overall_quality : CellValue
  overall_safety : CellValue
  overall_labelling : CellValue
  substandard_cases : CellValue
  unsafe_cases : CellValue
  test_type : CellValue
deriving DecidableEq, Repr

/-- The style configuration `settings` (built at lines 225-235).  `nodesep`
and `ranksep` are kept as their textual rendering (the code only interpolates
them into the DOT source). -/
structure Settings where
  rankdir : String
  fontname : String
  fontsize : Int
  node_shape : String
  nodesep : String
  ranksep : String
  default_color : String
  compliant_color : String
  noncompliant_color : String
deriving Repr

/-- One CSV-export record appended at lines 137 and 148:
`[commodity, variant_choice, branch, ttype, pname, cnt]`. -/
structure CsvRec where
  commodity : String
  variant : String
  branch : String
  testType : String
  param : String
  count : Nat
deriving DecidableEq, Repr

/-- Pandas `cell == somestring`: true exactly for an equal string cell
(`NaN`/`None` compare unequal to every string). -/
def cellEqStr (c : CellValue) (s : String) : Bool :=
  match c with
  | CellValue.str t => t == s
  | _ => false

/-- `fillna("(missing)")` on the `Variant 2` column (line 63). -/
def variantFilled (c : CellValue) : CellValue :=
  match c with
  | CellValue.none => CellValue.str "(missing)"
  | CellValue.nan => CellValue.str "(missing)"
  | x => x

/-- Lines 62-63: filter the dataset to the chosen commodity, then to the
chosen variant (with missing variants normalised to `"(missing)"`). -/
def filterRows (df : List Row) (commodity variant_choice : String) : List Row :=
  (df.filter (fun r => cellEqStr r.commodity commodity)).filter
    (fun r => cellEqStr (variantFilled r.variant2) variant_choice)

/-- `astype(str).str.strip().str.lower()` applied to one cell (lines 68, 72-74). -/
def normCell (c : CellValue) : String := pyLower (pyStrip (cellStr c))

/-- Line 69: rows whose normalised overall-compliance verdict equals
`COMPLIANT_TOKEN`. -/
def countCompliant (rows : List Row) : Nat :=
  rows.countP (fun r => normCell r.overall_compliance == "compliant as per fssr")

/-- Line 76: rows whose normalised overall-quality verdict equals
`SUBSTANDARD_TOKEN`. -/
def countQualitySub (rows : List Row) : Nat :=
  rows.countP (fun r => normCell r.overall_quality == "sub-standard")

/-- Line 77: rows whose normalised overall-safety verdict equals `UNSAFE_TOKEN`. -/
def countSafetyUnsafe (rows : List Row) : Nat :=
  rows.countP (fun r => normCell r.overall_safety == "unsafe")

/-- Line 78: rows whose normalised labelling verdict contains any
mis-labelling synonym as a substring. -/
def countLabMis (rows : List Row) : Nat :=
  rows.countP (fun r =>
    MIS_LABELLED_SET.any (fun x => substrIn x.toList (normCell r.overall_labelling).toList))

/-- `defaultdict(list)` append: extend the existing bucket of `k` in place, or
create a new bucket at the end (dict insertion order). -/
def groupAppend (g : List (String × List String)) (k v : String) : List (String × List String) :=
  if g.any (fun e => e.1 == k) then
    g.map (fun e => if e.1 == k then (e.1, e.2 ++ [v]) else e)
  else g ++ [(k, [v])]

/-- Lines 82-86 / 90-94: for each row of the matching sub-population, read the
test type (`str(..).strip()`), tokenize the designated cell, and append every
token `p` with `p.strip()` truthy as `p.strip()` into the test type's bucket.
`row.get` returns the cell itself since the column exists, so the `"Other"`
default is never taken here. -/
def buildGroups (rows : List Row) (getCell : Row → CellValue) : List (String × List String) :=
  rows.foldl
    (fun g r =>
      let ttype := pyStrip (cellStr r.test_type)
      let toks := ((split_parameters (getCell r)).filter (fun p => pyStrip p != "")).map pyStrip
      toks.foldl (fun g2 p => groupAppend g2 ttype p) g)
    []

/-- Keys of a list in order of first occurrence — the iteration order of a
Python dict/`Counter` built by insertion. -/
def firstOccurrences (l : List String) : List String :=
  l.foldl (fun acc p => if p ∈ acc then acc else acc ++ [p]) []

/-- `Counter(plist).items()`: pairs `(name, multiplicity)` in first-occurrence
order of the names. -/
def counterItems (l : List String) : List (String × Nat) :=
  (firstOccurrences l).map (fun p => (p, l.count p))

example : counterItems ["A", "B", "B", "A", "C"] = [("A", 2), ("B", 2), ("C", 1)] := by decide

/-- Line 134 / 145: the parameter-leaf identifier
`f"{type_id}_{abs(hash(pname))%9999}"`. -/
def paramNodeId (hash : String → Int) (type_id pname : String) : String :=
  type_id ++ "_" ++ toString ((hash pname).natAbs % 9999)

/-- Lines 129-136 / 140-147: the DOT lines of one branch (quality or safety):
for the `j`-th test type a node `idStem ++ j` and an edge from `parentId`,
then for each counted parameter a leaf node and an edge. -/
def branchLines (hash : String → Int) (idStem parentId : String)
    (groups : List (String × List String)) : List String :=
  groups.enum.flatMap (fun jt =>
    let type_id := idStem ++ toString jt.1
    ("  " ++ type_id ++ " [label=\"" ++ format_node_label_cnt jt.2.1 jt.2.2.length ++ "\"];") ::
    ("  " ++ parentId ++ " -> " ++ type_id ++ ";") ::
    (counterItems jt.2.2).flatMap (fun pc =>
      let pid := paramNodeId hash type_id pc.1
      [ "  " ++ pid ++ " [label=\"" ++ format_node_label_cnt pc.1 pc.2 ++ "\"];",
        "  " ++ type_id ++ " -> " ++ pid ++ ";" ]))

/-- Lines 137 / 148: the CSV records of one branch, in emission order. -/
def branchRecords (commodity variant branch : String)
    (groups : List (String × List String)) : List CsvRec :=
  groups.flatMap (fun g =>
    (counterItems g.2).map (fun pc =>
      { commodity := commodity, variant := variant, branch := branch,
        testType := g.1, param := pc.1, count := pc.2 }))

/-- Lines 68-151 of `build_tree_dot`, applied to the already-filtered,
non-empty subset `dfx`: classification counts, grouping, and the emitted DOT
lines together with the CSV records. -/
def buildBody (hash : String → Int) (dfx : List Row)
    (commodity variant_choice : String) (settings : Settings) :
    List String × List CsvRec :=
  let n_total := dfx.length
  let n_compliant := countCompliant dfx
  let n_noncompliant := n_total - n_compliant
  let n_quality_sub := countQualitySub dfx
  let n_safety_unsafe := countSafetyUnsafe dfx
  let n_lab_mis := countLabMis dfx
  let qual_grouped :=
    if n_quality_sub = 0 then []
    else buildGroups (dfx.filter (fun r => normCell r.overall_quality == "sub-standard"))
      (fun r => r.substandard_cases)
  let saf_grouped :=
    if n_safety_unsafe = 0 then []
    else buildGroups (dfx.filter (fun r => normCell r.overall_safety == "unsafe"))
      (fun r => r.unsafe_cases)
  let header := [
    "digraph G \x7b",
    "  rankdir=TB;",
    "  graph [splines=ortho, nodesep=" ++ settings.nodesep ++ ", ranksep=" ++ settings.ranksep ++ "];",
    "  node [shape=" ++ settings.node_shape ++ ", style=\"rounded,filled\", color=\"#d0d0d0\", fillcolor=\"" ++ settings.default_color ++ "\", fontname=\"" ++ settings.fontname ++ "\", fontsize=" ++ toString settings.fontsize ++ "];",
    "  edge [fontname=\"" ++ settings.fontname ++ "\", fontsize=" ++ toString (max 8 (settings.fontsize - 2)) ++ " , arrowhead=normal];" ]
  let mains := [
    "  root [label=\"" ++ format_node_label_pct (commodity ++ " - " ++ variant_choice) n_total "100.0" ++ "\"];",
    "  comp [label=\"" ++ format_node_label_pct "Compliant" n_compliant (formatPct n_compliant n_total) ++ "\", fillcolor=\"" ++ settings.compliant_color ++ "\"];",
    "  noncomp [label=\"" ++ format_node_label_pct "Non-Compliant" n_noncompliant (formatPct n_noncompliant n_total) ++ "\", fillcolor=\"" ++ settings.noncompliant_color ++ "\"];",
    "  root -> comp; root -> noncomp;",
    "  qual [label=\"" ++ format_node_label_pct "Quality Parameters" n_quality_sub (formatPct n_quality_sub n_total) ++ "\"];",
    "  saf [label=\"" ++ format_node_label_pct "Safety Parameters" n_safety_unsafe (formatPct n_safety_unsafe n_total) ++ "\"];",
    "  lab [label=\"" ++ format_node_label_pct "Labelling Parameters" n_lab_mis (formatPct n_lab_mis n_total) ++ "\"];",
    "  noncomp -> qual; noncomp -> saf; noncomp -> lab;" ]
  let qlines := branchLines hash "qtype" "qual" qual_grouped
  let slines := branchLines hash "stype" "saf" saf_grouped
  let qrecs := branchRecords commodity variant_choice "Quality" qual_grouped
  let srecs := branchRecords commodity variant_choice "Safety" saf_grouped
  (header ++ mains ++ qlines ++ slines ++ ["\x7d"], qrecs ++ srecs)

/-- `build_tree_dot` (lines 48-152): filter, fail on an empty subset with the
`ValueError` message of line 66, otherwise return the joined DOT source, the
statistics record `{"total": n_total}` of line 152, and the CSV records. -/
def build_tree_dot (hash : String → Int) (df : List Row)
    (commodity variant_choice : String) (settings : Settings) :
    Except String (String × List (String × Nat) × List CsvRec) :=
  let dfx := filterRows df commodity variant_choice
  if dfx.length = 0 then
    Except.error ("No rows for " ++ commodity ++ " / " ++ variant_choice)
  else
    let body := buildBody hash dfx commodity variant_choice settings
    Except.ok (String.intercalate "\n" body.1, [("total", dfx.length)], body.2)

/-- DOT source of a successful build (empty string on failure). -/
def dotOf (r : Except String (String × List (String × Nat) × List CsvRec)) : String :=
  match r with
  | Except.ok x => x.1
  | Except.error _ => ""

/-- Statistics record of a successful build (empty on failure). -/
def statsOf (r : Except String (String × List (String × Nat) × List CsvRec)) : List (String × Nat) :=
  match r with
  | Except.ok x => x.2.1
  | Except.error _ => []

/-- CSV records of a successful build (empty on failure). -/
def recsOf (r : Except String (String × List (String × Nat) × List CsvRec)) : List CsvRec :=
  match r with
  | Except.ok x => x.2.2
  | Except.error _ => []

/-- A hash function standing for one interpreter run's seeded string hash. -/
def hashZero : String → Int := fun _ => 0

/-- A hash function standing for a different run's seeded string hash. -/
def hashOne : String → Int := fun _ => 1

/-- The default sidebar style configuration (lines 225-235 defaults). -/
def stdSettings : Settings :=
  { rankdir := "TB", fontname := "Helvetica", fontsize := 12, node_shape := "box",
    nodesep := "0.5", ranksep := "0.6", default_color := "#ffffff",
    compliant_color := "#d4edda", noncompliant_color := "#f8d7da" }

/-- The style configuration with the left-to-right orientation chosen. -/
def lrSettings : Settings := { stdSettings with rankdir := "LR" }

/-- A quality-substandard row whose parameter cell is a missing (NaN) value. -/
def rowNan : Row :=
  { commodity := CellValue.str "Rice", variant2 := CellValue.str "Packed",
    overall_compliance := CellValue.str "Non-Compliant",
    overall_quality := CellValue.str "Sub-Standard",
    overall_safety := CellValue.str "Safe",
    overall_labelling := CellValue.str "OK",
    substandard_cases := CellValue.nan, unsafe_cases := CellValue.nan,
    test_type := CellValue.str "Chemical" }

/-- Single-row dataset with a NaN parameter cell. -/
def dfNan : List Row := [rowNan]

/-- A quality-substandard row whose parameter cell holds parameters A, B, B. -/
def rowOrder : Row :=
  { rowNan with substandard_cases := CellValue.str "A;B;B" }

/-- Single-row dataset whose quality branch collects `["A", "B", "B"]`. -/
def dfOrder : List Row := [rowOrder]

/-- Display order demanded by the spec: strictly more frequent first, ties in
ascending lexical order of the parameter name. -/
def descCountOrder (a b : String × Nat) : Prop :=
  b.2 < a.2 ∨ (a.2 = b.2 ∧ a.1 ≤ b.1)

instance (a b : String × Nat) : Decidable (descCountOrder a b) := by
  unfold descCountOrder
  infer_instance

/-- Helper for the first-occurrence accumulator: folding the dedup step over
any list preserves `Nodup` of the accumulator. -/
theorem foldlFirstOcc_nodup (l : List String) : ∀ acc : List String, acc.Nodup →
    (l.foldl (fun acc p => if p ∈ acc then acc else acc ++ [p]) acc).Nodup := by
  induction l with
  | nil => intro acc h; simpa using h
  | cons p rest ih =>
    intro acc h
    simp only [List.foldl_cons]
    by_cases hp : p ∈ acc
    · rw [if_pos hp]; exact ih acc h
    · rw [if_neg hp]
      refine ih _ ?_
      simp [List.nodup_append, h, hp]

/-- C1 (counterexample). At a concrete non-empty subset the statistics record
returned by `build_tree_dot` has exactly the key `total`: in particular it
does not contain the key `compliant` (nor the other keys the claim lists). -/
theorem C1_stats_counterexample :
    (statsOf (build_tree_dot hashZero dfNan "Rice" "Packed" stdSettings)).map Prod.fst = ["total"] ∧
    ¬ ("compliant" ∈ (statsOf (build_tree_dot hashZero dfNan "Rice" "Packed" stdSettings)).map Prod.fst) := by
  constructor <;> decide

/-- C1 (amended). For every non-empty filtered subset the statistics record
returned by `build_tree_dot` is exactly the one-entry mapping
`[("total", subset size)]`; the other counts appear only inside node labels of
the graph description, and per-parameter frequencies only in the CSV records. -/
theorem C1_stats_only_total (hash : String → Int) (df : List Row) (c v : String) (s : Settings)
    (h : filterRows df c v ≠ []) :
    statsOf (build_tree_dot hash df c v s) = [("total", (filterRows df c v).length)] := by
  have hlen : (filterRows df c v).length ≠ 0 := by simpa [List.length_eq_zero] using h
  simp [build_tree_dot, statsOf, hlen]

/-- Witness for `C1_stats_only_total` at a concrete non-empty subset. -/
theorem C1_stats_only_total_witness :
    statsOf (build_tree_dot hashZero dfNan "Rice" "Packed" stdSettings) =
      [("total", (filterRows dfNan "Rice" "Packed").length)] :=
  C1_stats_only_total hashZero dfNan "Rice" "Packed" stdSettings (by decide)

/-- C2 (code bug). The graph description emitted by `build_tree_dot` depends
on the interpreter run's string-hash function: with the same dataset and
style configuration, two runs whose seeded hashes differ on a parameter name
produce different DOT output (the parameter-leaf identifiers embed
`abs(hash(pname)) % 9999`). -/
theorem C2_output_depends_on_hash_seed :
    dotOf (build_tree_dot hashZero dfOrder "Rice" "Packed" stdSettings)
      ≠ dotOf (build_tree_dot hashOne dfOrder "Rice" "Packed" stdSettings) := by
  decide

/-- C3 (counterexample). The cell `"Compliances; Lead"`, where `compliance`
occurs only inside a longer word, is nevertheless routed to rule 1 by the
substring gate of line 29 and returned whole — it is not split at the
semicolon by rule 2 as the claim states. -/
theorem C3_gate_counterexample :
    split_parameters (CellValue.str "Compliances; Lead") = ["Compliances; Lead"] ∧
    split_parameters (CellValue.str "Compliances; Lead") ≠ ["Compliances", "Lead"] := by
  constructor <;> decide

/-- C3 (amended). Rule 1 is gated by a case-insensitive SUBSTRING test for
`compliance` (not a whole-word test): whenever the substring occurs in the
stripped cell text, the text is split at the (possibly zero) whole-word
occurrences of the marker, fragments are trimmed of whitespace, commas and
semicolons and empties dropped, and rules 2 and 3 are not applied.  The
spec's own repeated-suffix example still splits as documented, while
`"Compliances; Lead"` is returned as a single token. -/
theorem C3_substring_gate :
    (∀ s : String, hasComplianceMarker (pyStrip s) = true →
        split_parameters (CellValue.str s) = rule1Tokens (pyStrip s)) ∧
    split_parameters (CellValue.str "Compliances; Lead") = ["Compliances; Lead"] ∧
    split_parameters (CellValue.str "Aflatoxin, ppm Compliance Lead, ppm Compliance")
      = ["Aflatoxin, ppm", "Lead, ppm"] := by
  refine ⟨?_, by decide, by decide⟩
  intro s h
  have hne : pyStrip s ≠ "" := by
    intro he
    rw [he] at h
    exact absurd h (by decide)
  show splitText s = rule1Tokens (pyStrip s)
  unfold splitText
  rw [if_neg hne, if_pos h]

/-- Witness for `C3_substring_gate` at a concrete marker-bearing cell. -/
theorem C3_substring_gate_witness :
    split_parameters (CellValue.str "Lead Compliance") = rule1Tokens (pyStrip "Lead Compliance") :=
  C3_substring_gate.1 "Lead Compliance" (by decide)

/-- C4 (code bug). A missing (NaN) parameter cell is stringified to `"nan"`
by `str(..)` before the emptiness check, so `split_parameters` returns the
token `["nan"]`, and a quality-substandard row with a NaN parameter cell
contributes a parameter literally named `nan` to the aggregation. -/
theorem C4_nan_cell_counted :
    split_parameters CellValue.nan = ["nan"] ∧
    recsOf (build_tree_dot hashZero dfNan "Rice" "Packed" stdSettings) =
      [{ commodity := "Rice", variant := "Packed", branch := "Quality",
         testType := "Chemical", param := "nan", count := 1 }] := by
  constructor <;> decide

/-- C5 (counterexample). With quality parameters collected as
`["A", "B", "B"]`, the leaves are emitted as A (count 1) before B (count 2) —
first-occurrence order — which violates the claimed descending-count display
order. -/
theorem C5_order_counterexample :
    (recsOf (build_tree_dot hashZero dfOrder "Rice" "Packed" stdSettings)).map
        (fun r => (r.param, r.count)) = [("A", 1), ("B", 2)] ∧
    ¬ List.Pairwise descCountOrder [(("A" : String), 1), ("B", 2)] := by
  constructor
  · decide
  · intro hp
    have h1 := List.rel_of_pairwise_cons hp (List.mem_singleton.mpr rfl)
    rcases h1 with h | ⟨h, _⟩
    · omega
    · omega

/-- C5 (amended). For every collected parameter list, `Counter(...).items()`
yields each distinct name exactly once, in first-occurrence (insertion) order,
paired with its exact multiplicity — a deterministic order for identical
input, but not sorted by descending count. -/
theorem C5_insertion_order (l : List String) :
    (counterItems l).map Prod.fst = firstOccurrences l ∧
    (∀ pc : String × Nat, pc ∈ counterItems l → pc.2 = l.count pc.1) ∧
    (firstOccurrences l).Nodup := by
  refine ⟨?_, ?_, ?_⟩
  · simp only [counterItems, List.map_map]
    have hcomp : (Prod.fst ∘ fun p : String => (p, l.count p)) = fun p : String => p := rfl
    rw [hcomp]
    simp
  · intro pc hpc
    simp only [counterItems, List.mem_map] at hpc
    obtain ⟨p, _, rfl⟩ := hpc
    rfl
  · simpa [firstOccurrences] using foldlFirstOcc_nodup l [] (by simp)

/-- Witness for `C5_insertion_order`, reading off the multiplicity of `B`. -/
theorem C5_insertion_order_witness :
    ((("B" : String), 2) : String × Nat).2 = (["A", "B", "B"] : List String).count "B" :=
  (C5_insertion_order ["A", "B", "B"]).2.1 ("B", 2) (by decide)

/-- C6 (counterexample). With the left-to-right orientation configured, the
emitted layout line is still `rankdir=TB` — not the configured direction. -/
theorem C6_rankdir_counterexample :
    lrSettings.rankdir = "LR" ∧
    (buildBody hashZero dfNan "Rice" "Packed" lrSettings).1[1]? = some "  rankdir=TB;" ∧
    ("  rankdir=TB;" : String) ≠ "  rankdir=LR;" := by
  refine ⟨rfl, rfl, by decide⟩

/-- C6 (amended). `build_tree_dot` ignores the configured layout direction
entirely — its output is invariant under changes of `rankdir` — and the
emitted graph-level layout line is always the fixed `rankdir=TB`; the other
style attributes are applied at graph level as configured. -/
theorem C6_rankdir_fixed_tb :
    (∀ (hash : String → Int) (df : List Row) (c v : String) (s : Settings) (rd : String),
        build_tree_dot hash df c v { s with rankdir := rd } = build_tree_dot hash df c v s) ∧
    (∀ (hash : String → Int) (dfx : List Row) (c v : String) (s : Settings),
        (buildBody hash dfx c v s).1[1]? = some "  rankdir=TB;") := by
  constructor
  · intro hash df c v s rd
    cases s
    rfl
  · intro hash dfx c v s
    rfl

/-- C8 (code bug). For every hash function (hence for every interpreter run's
seeded string hash) there exist two distinct parameter names whose leaf node
identifiers under the same test-type node coincide: the suffix
`abs(hash(pname)) % 9999` takes at most 9999 values, so 10000 distinct names
must collide. -/
theorem C8_param_id_collision (hash : String → Int) :
    ∃ a b : String, a ≠ b ∧ paramNodeId hash "qtype0" a = paramNodeId hash "qtype0" b := by
  obtain ⟨i, j, hij, hf⟩ :=
    Fintype.exists_ne_map_eq_of_card_lt
      (fun i : Fin 10000 =>
        (⟨(hash (String.mk (List.replicate (i.val + 1) 'p'))).natAbs % 9999,
          Nat.mod_lt _ (by norm_num)⟩ : Fin 9999))
      (by simp only [Fintype.card_fin]; omega)
  refine ⟨String.mk (List.replicate (i.val + 1) 'p'),
          String.mk (List.replicate (j.val + 1) 'p'), ?_, ?_⟩
  · intro h
    apply hij
    have hlen : i.val + 1 = j.val + 1 := by
      have h2 := congrArg (fun s : String => s.toList.length) h
      simpa using h2
    exact Fin.ext (Nat.succ_injective hlen)
  · have hmod : (hash (String.mk (List.replicate (i.val + 1) 'p'))).natAbs % 9999
        = (hash (String.mk (List.replicate (j.val + 1) 'p'))).natAbs % 9999 :=
      congrArg Fin.val hf
    unfold paramNodeId
    rw [hmod]

/-- C7 (code bug). Rule 2 filters fragments by whitespace-stripped truthiness
but returns them stripped of `" ,;"`: the input `","` therefore yields the
singleton list containing the empty string, not the empty list. -/
theorem C7_empty_token_kept :
    split_parameters (CellValue.str ",") = [""] ∧
    "" ∈ split_parameters (CellValue.str ",") := by
  constructor <;> decide

/-- C9 (confirmed). An empty filtered subset makes `build_tree_dot` fail with
the `ValueError` message naming the offending commodity and variant, and no
graph description is produced; every non-empty subset succeeds, with
`compliant + non_compliant = total` (where `non_compliant = total − compliant`
and `compliant ≤ total`). -/
theorem C9_empty_error_nonempty_counts (hash : String → Int) (df : List Row)
    (c v : String) (s : Settings) :
    (filterRows df c v = [] →
        build_tree_dot hash df c v s = Except.error ("No rows for " ++ c ++ " / " ++ v)) ∧
    (filterRows df c v ≠ [] →
        (∃ out, build_tree_dot hash df c v s = Except.ok out) ∧
        countCompliant (filterRows df c v) ≤ (filterRows df c v).length ∧
        countCompliant (filterRows df c v) +
            ((filterRows df c v).length - countCompliant (filterRows df c v)) =
          (filterRows df c v).length) := by
  constructor
  · intro h
    simp [build_tree_dot, h]
  · intro h
    have hlen : (filterRows df c v).length ≠ 0 := by simpa [List.length_eq_zero] using h
    refine ⟨⟨(String.intercalate "\n" (buildBody hash (filterRows df c v) c v s).1,
              [("total", (filterRows df c v).length)],
              (buildBody hash (filterRows df c v) c v s).2), ?_⟩, ?_, ?_⟩
    · simp [build_tree_dot, hlen]
    · exact List.countP_le_length _
    · exact Nat.add_sub_cancel' (List.countP_le_length _)

/-- Witness for `C9_empty_error_nonempty_counts`: a concrete empty filter
fails with the named message, and a concrete non-empty subset succeeds with
the count identity. -/
theorem C9_empty_error_nonempty_counts_witness :
    build_tree_dot hashZero [] "Rice" "Packed" stdSettings
      = Except.error "No rows for Rice / Packed" ∧
    (∃ out, build_tree_dot hashZero dfNan "Rice" "Packed" stdSettings = Except.ok out) ∧
    countCompliant (filterRows dfNan "Rice" "Packed") +
        ((filterRows dfNan "Rice" "Packed").length
          - countCompliant (filterRows dfNan "Rice" "Packed")) =
      (filterRows dfNan "Rice" "Packed").length := by
  refine ⟨?_, ?_, ?_⟩
  · exact (C9_empty_error_nonempty_counts hashZero [] "Rice" "Packed" stdSettings).1 rfl
  · exact ((C9_empty_error_nonempty_counts hashZero dfNan "Rice" "Packed" stdSettings).2
      (by decide)).1
  · exact ((C9_empty_error_nonempty_counts hashZero dfNan "Rice" "Packed" stdSettings).2
      (by decide)).2.2

/-- C10 (confirmed). `split_parameters` is total on the modelled cell values:
`None` yields `[]`, a whitespace-only string yields `[]`, and every non-`None`
value is processed via its `str(..)` form (so non-string values cannot raise). -/
theorem C10_tokenizer_total :
    split_parameters CellValue.none = [] ∧
    (∀ s : String, pyStrip s = "" → split_parameters (CellValue.str s) = []) ∧
    (∀ c : CellValue, c ≠ CellValue.none →
        split_parameters c = split_parameters (CellValue.str (cellStr c))) := by
  refine ⟨rfl, ?_, ?_⟩
  · intro s h
    show splitText s = []
    unfold splitText
    rw [if_pos h]
  · intro c hc
    cases c with
    | none => exact absurd rfl hc
    | nan => rfl
    | str s => rfl

/-- Witness for `C10_tokenizer_total` at a whitespace-only string and at the
non-string value NaN. -/
theorem C10_tokenizer_total_witness :
    split_parameters (CellValue.str "   ") = [] ∧
    split_parameters CellValue.nan = split_parameters (CellValue.str (cellStr CellValue.nan)) := by
  constructor
  · exact C10_tokenizer_total.2.1 "   " (by decide)
  · exact C10_tokenizer_total.2.2 CellValue.nan (by decide)
